import Mathlib

/-!
Verification development for the external-link-monitor service.

The Python source (`app/database.py`, `app/services.py`, `app/models.py`,
`app/main.py`) is embedded shallowly: timestamps are integers (seconds),
the audit table is a list of rows, SQL `SELECT` statements become filters
followed by a sort, and every fallible step returns `Except`.
-/

namespace ELM

/-! ## Time and calendar model

`created_at` is a timestamp without time zone, modelled as seconds since
the epoch (an `Int`).  `date_trunc('day', t)` floors to a multiple of
86400.  `make_date` / `::date` use the proleptic Gregorian calendar,
embedded with the standard days-from-civil algorithm. -/

/-- `date_trunc('day', t)`: floor `t` to midnight. -/
def dayTrunc (t : Int) : Int := 86400 * t.fdiv 86400

/-- Days from 1970-01-01 to the civil date `(y, m, d)` in the proleptic
Gregorian calendar (standard era/year-of-era computation). -/
def daysFromCivil (y m d : Int) : Int :=
  let y' := if m ≤ 2 then y - 1 else y
  let era := y'.fdiv 400
  let yoe := y' - era * 400
  let mp := (m + 9) % 12
  let doy := (153 * mp + 2) / 5 + d - 1
  let doe := yoe * 365 + yoe / 4 - yoe / 100 + doy
  era * 146097 + doe - 719468

/-- Midnight timestamp of a civil date: what `%s::date` yields for a
`YYYY-MM-DD` parameter. -/
def dateToTime (y m d : Int) : Int := 86400 * daysFromCivil y m d

/-- `make_date(year, month, 1)` as a midnight timestamp. -/
def monthStart (y m : Int) : Int := dateToTime y m 1

/-- `make_date(year, month, 1) + INTERVAL '1 month'`: midnight of the
first day of the following month. -/
def nextMonthStart (y m : Int) : Int :=
  if m = 12 then monthStart (y + 1) 1 else monthStart y (m + 1)

/-! ## Text ordering

SQL `ORDER BY origin_url ASC` compares strings lexicographically by code
point.  The comparator is written as a structurally recursive boolean
function so that concrete queries evaluate inside the kernel. -/

/-- Strict lexicographic order on character lists. -/
def charListLt : List Char → List Char → Bool
  | _, [] => false
  | [], _ :: _ => true
  | a :: as, b :: bs => decide (a < b) || (decide (a = b) && charListLt as bs)

/-- Non-strict lexicographic order on character lists. -/
def charListLe : List Char → List Char → Bool
  | [], _ => true
  | _ :: _, [] => false
  | a :: as, b :: bs => decide (a < b) || (decide (a = b) && charListLe as bs)

/-- `a ≤ b` for SQL text values. -/
def strLe (a b : String) : Bool := charListLe a.data b.data

/-- `a < b` for SQL text values. -/
def strLt (a b : String) : Bool := charListLt a.data b.data

/-! ## A sort producing the `ORDER BY` result

Insertion sort by a boolean comparator; it is a permutation of its input
and, for a total transitive comparator, pairwise sorted — exactly the
contract of `ORDER BY`. -/

/-- Insert `a` into `l` in front of the first element not below it. -/
def orderedInsertB (le : α → α → Bool) (a : α) : List α → List α
  | [] => [a]
  | b :: bs => if le a b then a :: b :: bs else b :: orderedInsertB le a bs

/-- Sort a list by the boolean comparator `le`. -/
def sortByB (le : α → α → Bool) : List α → List α
  | [] => []
  | a :: as => orderedInsertB le a (sortByB le as)

theorem mem_orderedInsertB (le : α → α → Bool) (a x : α) (l : List α) :
    x ∈ orderedInsertB le a l ↔ x = a ∨ x ∈ l := by
  induction l with
  | nil => simp [orderedInsertB]
  | cons b bs ih =>
      by_cases h : le a b = true
      · simp [orderedInsertB, h]
      · simp only [orderedInsertB, if_neg h, List.mem_cons, ih]
        tauto

theorem mem_sortByB (le : α → α → Bool) (x : α) (l : List α) :
    x ∈ sortByB le l ↔ x ∈ l := by
  induction l with
  | nil => simp [sortByB]
  | cons a as ih => simp [sortByB, mem_orderedInsertB, ih]

theorem pairwise_orderedInsertB (le : α → α → Bool)
    (total : ∀ a b, le a b = true ∨ le b a = true)
    (trns : ∀ a b c, le a b = true → le b c = true → le a c = true)
    (a : α) (l : List α) (h : l.Pairwise (fun x y => le x y = true)) :
    (orderedInsertB le a l).Pairwise (fun x y => le x y = true) := by
  induction l with
  | nil => simp [orderedInsertB]
  | cons b bs ih =>
      rcases List.pairwise_cons.mp h with ⟨hb, hbs⟩
      by_cases hab : le a b = true
      · have e : orderedInsertB le a (b :: bs) = a :: b :: bs := by
          simp [orderedInsertB, hab]
        rw [e]
        refine List.pairwise_cons.mpr ⟨?_, h⟩
        intro x hx
        rcases List.mem_cons.mp hx with rfl | hx
        · exact hab
        · exact trns a b x hab (hb x hx)
      · have e : orderedInsertB le a (b :: bs) = b :: orderedInsertB le a bs := by
          simp [orderedInsertB, hab]
        rw [e]
        rcases total a b with hab' | hba
        · exact absurd hab' hab
        · refine List.pairwise_cons.mpr ⟨?_, ih hbs⟩
          intro x hx
          rcases (mem_orderedInsertB le a x bs).mp hx with rfl | hx
          · exact hba
          · exact hb x hx

theorem pairwise_sortByB (le : α → α → Bool)
    (total : ∀ a b, le a b = true ∨ le b a = true)
    (trns : ∀ a b c, le a b = true → le b c = true → le a c = true)
    (l : List α) :
    (sortByB le l).Pairwise (fun x y => le x y = true) := by
  induction l with
  | nil => simp [sortByB]
  | cons a as ih => exact pairwise_orderedInsertB le total trns a (sortByB le as) ih

/-! ## Data model (`external_link_snapshot` table, `app/database.py`) -/

/-- One row of `external_link_snapshot`.  `page_url` and `page_hash` are
nullable columns; `created_at` defaults to `NOW()` at insert time. -/
structure CaptureRow where
  id : Int
  origin_url : String
  click_type : String
  click_value : String
  page_url : Option String
  page_hash : Option String
  screenshot_path : String
  created_at : Int
  deriving DecidableEq, Repr

/-- Table state: the `BIGSERIAL` sequence counter and the stored rows. -/
structure DbState where
  seq : Int
  rows : List CaptureRow
  deriving DecidableEq, Repr

/-- `Database.insert_snapshot` (`app/database.py` lines 84–122): runs
`INSERT … RETURNING id;` — the row is stored with the next sequence id
and `created_at = NOW()` — but the cursor result is never fetched and the
function body has no `return` statement, so the awaited call yields
Python `None`, not the id. -/
def insert_snapshot (db : DbState) (origin_url click_type click_value : String)
    (page_url page_hash : Option String) (screenshot_path : String)
    (now : Int) : DbState × Option Int :=
  (⟨db.seq + 1,
    db.rows ++ [⟨db.seq, origin_url, click_type, click_value,
                page_url, page_hash, screenshot_path, now⟩]⟩,
   none)

/-- One result row of the 60-day rollup query. -/
structure StatRow where
  day : Int
  origin_url : String
  total_events : Nat
  unique_pages : Nat
  deriving DecidableEq, Repr

/-- `ORDER BY day ASC, origin_url ASC` on group keys. -/
def statKeyLe (a b : Int × String) : Bool :=
  decide (a.1 < b.1) || (decide (a.1 = b.1) && strLe a.2 b.2)

/-- `ORDER BY origin_url ASC, created_at ASC` on detail rows. -/
def detailLe (a b : CaptureRow) : Bool :=
  strLt a.origin_url b.origin_url ||
    (decide (a.origin_url = b.origin_url) && decide (a.created_at ≤ b.created_at))

/-- The group key `(date_trunc('day', created_at), origin_url)`. -/
def statKey (r : CaptureRow) : Int × String := (dayTrunc r.created_at, r.origin_url)

/-- `Database.get_daily_stats_last_60_days` (`app/database.py` lines
124–144): `WHERE created_at >= NOW() - INTERVAL '60 days'` (no upper
bound), `GROUP BY day, origin_url`, `COUNT(id)`,
`COUNT(DISTINCT page_hash)` (SQL ignores NULLs), ordered by day then
origin_url. -/
def get_daily_stats_last_60_days (rows : List CaptureRow) (now : Int) :
    List StatRow :=
  let inWindow := rows.filter fun r => decide (now - 60 * 86400 ≤ r.created_at)
  let keys := sortByB statKeyLe (inWindow.map statKey).dedup
  keys.map fun k =>
    let grp := inWindow.filter fun r => decide (statKey r = k)
    ⟨k.1, k.2, grp.length, (grp.filterMap (fun r => r.page_hash)).dedup.length⟩

/-- `Database.get_yesterday_events` (`app/database.py` lines 146–161):
`created_at >= date_trunc('day', NOW() - INTERVAL '1 day') AND
created_at < date_trunc('day', NOW())`, ordered by `created_at`. -/
def get_yesterday_events (rows : List CaptureRow) (now : Int) : List CaptureRow :=
  sortByB (fun a b => decide (a.created_at ≤ b.created_at))
    (rows.filter fun r =>
      decide (dayTrunc (now - 86400) ≤ r.created_at) &&
      decide (r.created_at < dayTrunc now))

/-- `Database.get_events_by_day` (`app/database.py` lines 163–179):
`created_at >= %s::date AND created_at < (%s::date + INTERVAL '1 day')`,
ordered by `origin_url`, `created_at`.  The `YYYY-MM-DD` parameter is
embedded as the civil triple `(y, m, d)`. -/
def get_events_by_day (rows : List CaptureRow) (y m d : Int) : List CaptureRow :=
  sortByB detailLe
    (rows.filter fun r =>
      decide (dateToTime y m d ≤ r.created_at) &&
      decide (r.created_at < dateToTime y m d + 86400))

/-- `Database.get_events_by_month` (`app/database.py` lines 181–200):
`created_at >= make_date(%s, %s, 1) AND created_at <
(make_date(%s, %s, 1) + INTERVAL '1 month')`, same ordering. -/
def get_events_by_month (rows : List CaptureRow) (y m : Int) : List CaptureRow :=
  sortByB detailLe
    (rows.filter fun r =>
      decide (monthStart y m ≤ r.created_at) &&
      decide (r.created_at < nextMonthStart y m))

/-- `Database.get_events_by_range` (`app/database.py` lines 202–225):
`created_at >= %s AND created_at <= %s`, same ordering. -/
def get_events_by_range (rows : List CaptureRow) (s e : Int) : List CaptureRow :=
  sortByB detailLe
    (rows.filter fun r =>
      decide (s ≤ r.created_at) && decide (r.created_at ≤ e))

/-! ## Render client (`PlaywrightService.render_click`, `app/services.py`) -/

/-- The JSON body of a render-collaborator response, read with
`result.get(...)` — every field may be absent. -/
structure RenderBody where
  status : Option String
  message : Option String
  page_url : Option String
  page_hash : Option String
  screenshot_base64 : Option String
  deriving DecidableEq, Repr

/-- Transport-level outcome of the outbound `POST /render-click`. -/
inductive RenderTransport where
  | timeout (msg : String)
  | httpError (msg : String)
  | response (status_code : Nat) (body : RenderBody)
  deriving DecidableEq, Repr

/-- `PlaywrightService.render_click` (`app/services.py` lines 26–101):
timeouts and transport errors are re-raised with a message prefix; a
non-200 transport status raises; a 200 response whose body `status` is
not `"ok"` raises with the body's `message` (default `"Unknown error"`);
otherwise the parsed body is returned. -/
def render_click (t : RenderTransport) : Except String RenderBody :=
  match t with
  | .timeout m => .error ("Playwright Service 请求超时: " ++ m)
  | .httpError m => .error ("Playwright Service HTTP 请求失败: " ++ m)
  | .response code body =>
      if code ≠ 200 then
        .error ("Playwright Service 返回错误: " ++ toString code)
      else if body.status ≠ some "ok" then
        .error ("Playwright Service 执行失败: " ++ body.message.getD "Unknown error")
      else
        .ok body

/-! ## Artifact store (`ScreenshotManager.save_screenshot`) -/

/-- Value of a base64 alphabet character, `none` for anything else. -/
def b64charVal (c : Char) : Option Nat :=
  if 'A' ≤ c ∧ c ≤ 'Z' then some (c.toNat - 65)
  else if 'a' ≤ c ∧ c ≤ 'z' then some (c.toNat - 97 + 26)
  else if '0' ≤ c ∧ c ≤ '9' then some (c.toNat - 48 + 52)
  else if c = '+' then some 62
  else if c = '/' then some 63
  else none

/-- Reassemble bytes from 6-bit groups (a trailing group of 2 or 3
values yields 1 or 2 bytes). -/
def b64quads : List Nat → List Nat
  | a :: b :: c :: d :: rest =>
      (a * 4 + b / 16) :: ((b % 16) * 16 + c / 4) :: ((c % 4) * 64 + d) ::
        b64quads rest
  | [a, b] => [a * 4 + b / 16]
  | [a, b, c] => [a * 4 + b / 16, (b % 16) * 16 + c / 4]
  | _ => []

/-- `base64.b64decode` on a `str` (default `validate=False`): characters
outside the alphabet are discarded, the remaining length must be a
multiple of 4, up to two `'='` may pad the end.  `b64decode("")` is the
empty byte string. -/
def b64decode (s : String) : Except String (List Nat) :=
  let cs := s.data.filter fun c => (b64charVal c).isSome || decide (c = '=')
  if cs.length % 4 ≠ 0 then
    .error "binascii.Error: Invalid base64-encoded string"
  else
    let nPad := (cs.reverse.takeWhile fun c => decide (c = '=')).length
    if 2 < nPad then .error "binascii.Error: Invalid base64-encoded string"
    else
      let body := cs.take (cs.length - nPad)
      if body.all fun c => (b64charVal c).isSome then
        .ok (b64quads (body.filterMap b64charVal))
      else
        .error "binascii.Error: Discontinuous padding not allowed"

/-- One artifact on the screenshot filesystem. -/
structure FsFile where
  path : String
  content : List Nat
  deriving DecidableEq, Repr

/-- `ScreenshotManager.save_screenshot` (`app/services.py` lines
115–151): decodes the base64 payload and writes it whole to
`dirname/fname` (the name is a timestamp plus a random suffix, supplied
here as `fname`), returning the path.  `b64decode(None)` raises
`TypeError`; a failed write raises.  `writeOk` says whether the
filesystem accepts the write. -/
def save_screenshot (screenshot_base64 : Option String)
    (dirname fname : String) (writeOk : Bool) (fs : List FsFile) :
    Except String (List FsFile × String) :=
  match screenshot_base64 with
  | none =>
      .error "TypeError: argument should be a bytes-like object or ASCII string, not NoneType"
  | some s =>
      match b64decode s with
      | .error e => .error e
      | .ok bytes =>
          if writeOk then
            let filepath := dirname ++ "/" ++ fname
            .ok (fs ++ [⟨filepath, bytes⟩], filepath)
          else
            .error "OSError: write failed"

/-! ## Request and response models (`app/models.py`) -/

/-- A validated `CreateSnapshotRequest`.  Note the source declares
`click_type` as a plain `str` — no enum constraint — and none of the
string fields carry a minimum length. -/
structure CreateSnapshotRequest where
  origin_url : String
  click_type : String
  click_value : String
  wait_after_click_ms : Int
  full_page : Bool
  deriving DecidableEq, Repr

/-- The raw JSON payload of a create-capture call before validation. -/
structure RawCreateSnapshotRequest where
  origin_url : Option String
  click_type : Option String
  click_value : Option String
  wait_after_click_ms : Option Int
  full_page : Option Bool
  deriving DecidableEq, Repr

/-- Pydantic validation of `CreateSnapshotRequest` (`app/models.py`
lines 10–27): the three string fields are required (any string value,
empty included, passes), `wait_after_click_ms` defaults to 3000 and must
be `≥ 0` (`ge=0`), `full_page` defaults to `true`.  No field checks
`click_type` against `{text, css, xpath, aria}`. -/
def validateCreateSnapshotRequest (raw : RawCreateSnapshotRequest) :
    Except String CreateSnapshotRequest :=
  match raw.origin_url, raw.click_type, raw.click_value with
  | some o, some ct, some cv =>
      let w := raw.wait_after_click_ms.getD 3000
      if w < 0 then
        .error "validation error: wait_after_click_ms: Input should be greater than or equal to 0"
      else
        .ok ⟨o, ct, cv, w, raw.full_page.getD true⟩
  | _, _, _ => .error "validation error: Field required"

/-- The wire request `render_click` posts to the collaborator
(`app/services.py` lines 51–59): every field is forwarded verbatim. -/
structure RenderRequest where
  url : String
  click_type : String
  click_value : String
  wait_after_click_ms : Int
  full_page : Bool
  deriving DecidableEq, Repr

/-- The `request_data` dictionary built inside `render_click`. -/
def buildRenderRequest (req : CreateSnapshotRequest) : RenderRequest :=
  ⟨req.origin_url, req.click_type, req.click_value,
   req.wait_after_click_ms, req.full_page⟩

/-- Response model for a successful capture (`app/models.py`):
`snapshot_id : int` is required. -/
structure CreateSnapshotResponse where
  snapshot_id : Int
  status : String
  deriving DecidableEq, Repr

/-! ## Capture orchestrator (`create_snapshot`, `app/main.py`) -/

/-- The Python value bound to `snapshot_id` in `create_snapshot`:
either an integer or — as in the source, where `db.insert_snapshot(...)`
is called without `await` — an un-run coroutine object. -/
inductive PyVal where
  | int (n : Int)
  | coroutine (desc : String)
  deriving DecidableEq, Repr

/-- Building `CreateSnapshotResponse(snapshot_id=..., status="ok")`:
pydantic accepts an integer and rejects anything else with a validation
error (which the endpoint's `except` turns into an HTTP 500). -/
def mkSnapshotResponse : PyVal → Except String CreateSnapshotResponse
  | .int n => .ok ⟨n, "ok"⟩
  | .coroutine _ =>
      .error "1 validation error for CreateSnapshotResponse: snapshot_id: Input should be a valid integer"

/-- `create_snapshot` (`app/main.py` lines 102–174).  Steps: render call
(line 121, awaited), screenshot save (line 138), database insert (line
143).  The insert call `db.insert_snapshot(...)` lacks `await`: the
coroutine object is created — capturing the arguments, including the
screenshot path — but its body never runs, so the table is unchanged and
`snapshot_id` is bound to the coroutine, which then fails response
validation.  Any raised error is returned as an HTTP 500 with the
exception message. -/
def create_snapshot (req : CreateSnapshotRequest) (transport : RenderTransport)
    (dirname fname : String) (writeOk : Bool) (fs : List FsFile) (db : DbState) :
    Except String CreateSnapshotResponse × List FsFile × DbState :=
  match render_click transport with
  | .error e => (.error e, fs, db)
  | .ok result =>
      match save_screenshot result.screenshot_base64 dirname fname writeOk fs with
      | .error e => (.error e, fs, db)
      | .ok (fs2, screenshot_path) =>
          let snapshot_id :=
            PyVal.coroutine ("Database.insert_snapshot(" ++ req.origin_url ++ ", " ++
              req.click_type ++ ", " ++ req.click_value ++ ", " ++ screenshot_path ++ ")")
          match mkSnapshotResponse snapshot_id with
          | .error e => (.error e, fs2, db)
          | .ok resp => (.ok resp, fs2, db)

/-! ## The database operation surface, for the append-only invariant -/

/-- Every operation `Database` exposes on stored rows. -/
inductive DbOp where
  | insertOp (origin_url click_type click_value : String)
      (page_url page_hash : Option String) (screenshot_path : String) (now : Int)
  | dailyStatsOp (now : Int)
  | yesterdayOp (now : Int)
  | byDayOp (y m d : Int)
  | byMonthOp (y m : Int)
  | byRangeOp (s e : Int)
  deriving DecidableEq, Repr

/-- Reply of a database operation. -/
inductive DbReply where
  | idReply (v : Option Int)
  | detailReply (rs : List CaptureRow)
  | statsReply (ss : List StatRow)
  deriving DecidableEq, Repr

/-- Run one database operation against the table state. -/
def applyDb (db : DbState) : DbOp → DbState × DbReply
  | .insertOp o ct cv pu ph sp now =>
      let r := insert_snapshot db o ct cv pu ph sp now
      (r.1, .idReply r.2)
  | .dailyStatsOp now => (db, .statsReply (get_daily_stats_last_60_days db.rows now))
  | .yesterdayOp now => (db, .detailReply (get_yesterday_events db.rows now))
  | .byDayOp y m d => (db, .detailReply (get_events_by_day db.rows y m d))
  | .byMonthOp y m => (db, .detailReply (get_events_by_month db.rows y m))
  | .byRangeOp s e => (db, .detailReply (get_events_by_range db.rows s e))

/-! ## Concrete test fixtures -/

/-- A well-formed capture request. -/
def reqEx : CreateSnapshotRequest :=
  ⟨"https://site.example", "text", "Download", 3000, true⟩

/-- A fully successful collaborator body; the payload decodes to the
bytes of "hello". -/
def okBodyEx : RenderBody :=
  ⟨some "ok", none, some "https://dest.example/landing", some "deadbeef",
   some "aGVsbG8="⟩

/-- An empty table whose sequence is at 1. -/
def dbEx : DbState := ⟨1, []⟩

/-! ## Claim theorems -/

/-- C2: whenever the render client fails — transport timeout, transport
error, non-200 transport status, or a 200 response whose body status is
not "ok" — the capture aborts with that error, no artifact is written
and no audit row is inserted. -/
theorem c2_render_failure_aborts_cleanly :
    (∀ req transport dirname fname writeOk fs db e,
        render_click transport = .error e →
        create_snapshot req transport dirname fname writeOk fs db =
          (.error e, fs, db)) ∧
    (∀ m, ∃ e, render_click (.timeout m) = .error e) ∧
    (∀ m, ∃ e, render_click (.httpError m) = .error e) ∧
    (∀ code body, code ≠ 200 → ∃ e, render_click (.response code body) = .error e) ∧
    (∀ body : RenderBody, body.status ≠ some "ok" →
        ∃ e, render_click (.response 200 body) = .error e) := by
  refine ⟨?_, ?_, ?_, ?_, ?_⟩
  · intro req transport dirname fname writeOk fs db e h
    simp only [create_snapshot, h]
  · intro m; exact ⟨_, rfl⟩
  · intro m; exact ⟨_, rfl⟩
  · intro code body h
    exact ⟨"Playwright Service 返回错误: " ++ toString code, by simp [render_click, h]⟩
  · intro body h
    exact ⟨"Playwright Service 执行失败: " ++ body.message.getD "Unknown error",
      by simp [render_click, h]⟩

/-- Closed instance of the C2 theorem at a concrete timed-out call. -/
theorem c2_witness :
    create_snapshot reqEx (.timeout "ReadTimeout") "/data/screenshots"
      "20240115_ab12cd34.png" true [] dbEx =
      (.error "Playwright Service 请求超时: ReadTimeout", [], dbEx) :=
  c2_render_failure_aborts_cleanly.1 reqEx (.timeout "ReadTimeout")
    "/data/screenshots" "20240115_ab12cd34.png" true [] dbEx _ rfl

/-- C3: when the render call succeeds but the screenshot save fails
(decode error or write error), the capture aborts with the save error,
the filesystem and the audit table are unchanged — the render result's
page_url and page_hash never reach storage. -/
theorem c3_store_failure_discards_render_result :
    ∀ req transport (body : RenderBody) dirname fname writeOk fs db e,
      render_click transport = .ok body →
      save_screenshot body.screenshot_base64 dirname fname writeOk fs = .error e →
      create_snapshot req transport dirname fname writeOk fs db =
        (.error e, fs, db) := by
  intro req transport body dirname fname writeOk fs db e h1 h2
  simp only [create_snapshot, h1, h2]

/-- Closed instance of the C3 theorem: a successful render followed by a
failed file write leaves both stores untouched. -/
theorem c3_witness :
    create_snapshot reqEx (.response 200 okBodyEx) "/data/screenshots"
      "20240115_ab12cd34.png" false [] dbEx =
      (.error "OSError: write failed", [], dbEx) :=
  c3_store_failure_discards_render_result reqEx (.response 200 okBodyEx)
    okBodyEx "/data/screenshots" "20240115_ab12cd34.png" false [] dbEx _
    rfl rfl

/-- C6: a transport-200 response whose body status is anything other
than "ok" is treated as a failure; the error carries the body's message
field, and the body is never returned as a success result. -/
theorem c6_logical_failure_at_transport_success :
    ∀ body : RenderBody, body.status ≠ some "ok" →
      (∀ b, render_click (.response 200 body) ≠ .ok b) ∧
      render_click (.response 200 body) =
        .error ("Playwright Service 执行失败: " ++ body.message.getD "Unknown error") ∧
      (∀ m, body.message = some m →
        render_click (.response 200 body) =
          .error ("Playwright Service 执行失败: " ++ m)) := by
  intro body h
  refine ⟨?_, ?_, ?_⟩
  · intro b hb
    simp [render_click, h] at hb
  · simp [render_click, h]
  · intro m hm
    simp [render_click, h, hm]

/-- Closed instance of the C6 theorem at a concrete failing body. -/
theorem c6_witness :
    render_click (.response 200 ⟨some "error", some "element not found",
        none, none, none⟩) =
      .error "Playwright Service 执行失败: element not found" :=
  (c6_logical_failure_at_transport_success
      ⟨some "error", some "element not found", none, none, none⟩
      (by decide)).2.2 "element not found" rfl

/-- C9: a 200 response with status "ok" but no screenshot_base64 field
makes the capture fail at the screenshot-save step (None cannot be
base64-decoded) with no row inserted and no file written. -/
theorem c9_absent_screenshot_fails_at_save :
    ∀ req dirname fname writeOk fs db (body : RenderBody),
      body.status = some "ok" → body.screenshot_base64 = none →
      create_snapshot req (.response 200 body) dirname fname writeOk fs db =
        (.error "TypeError: argument should be a bytes-like object or ASCII string, not NoneType",
         fs, db) := by
  intro req dirname fname writeOk fs db body h1 h2
  have hr : render_click (.response 200 body) = .ok body := by
    simp [render_click, h1]
  have hs : save_screenshot body.screenshot_base64 dirname fname writeOk fs =
      .error "TypeError: argument should be a bytes-like object or ASCII string, not NoneType" := by
    rw [h2]
    rfl
  simp only [create_snapshot, hr, hs]

/-- Closed instance of the C9 theorem. -/
theorem c9_witness :
    create_snapshot reqEx
      (.response 200 ⟨some "ok", none, some "https://dest.example", some "deadbeef", none⟩)
      "/data/screenshots" "20240115_ab12cd34.png" true [] dbEx =
      (.error "TypeError: argument should be a bytes-like object or ASCII string, not NoneType",
       [], dbEx) :=
  c9_absent_screenshot_fails_at_save reqEx "/data/screenshots"
    "20240115_ab12cd34.png" true [] dbEx
    ⟨some "ok", none, some "https://dest.example", some "deadbeef", none⟩ rfl rfl

/-- C4: the day query returns exactly the rows in the half-open window
from the date's midnight to the next midnight, the month query exactly
those from the first of the month to the first of the next month
(half-open), and the range query exactly those in the inclusive window;
a row timestamped exactly at the range end is included, while a row
exactly at a day or month upper bound is excluded. -/
theorem c4_window_boundaries :
    (∀ rows y m d (r : CaptureRow), r ∈ get_events_by_day rows y m d ↔
        r ∈ rows ∧ dateToTime y m d ≤ r.created_at ∧
          r.created_at < dateToTime y m d + 86400) ∧
    (∀ rows y m (r : CaptureRow), r ∈ get_events_by_month rows y m ↔
        r ∈ rows ∧ monthStart y m ≤ r.created_at ∧
          r.created_at < nextMonthStart y m) ∧
    (∀ rows s e (r : CaptureRow), r ∈ get_events_by_range rows s e ↔
        r ∈ rows ∧ s ≤ r.created_at ∧ r.created_at ≤ e) ∧
    (∀ rows s e (r : CaptureRow), r ∈ rows → s ≤ r.created_at →
        r.created_at = e → r ∈ get_events_by_range rows s e) ∧
    (∀ rows y m d (r : CaptureRow), r.created_at = dateToTime y m d + 86400 →
        r ∉ get_events_by_day rows y m d) ∧
    (∀ rows y m (r : CaptureRow), r.created_at = nextMonthStart y m →
        r ∉ get_events_by_month rows y m) := by
  have hday : ∀ rows y m d (r : CaptureRow), r ∈ get_events_by_day rows y m d ↔
      r ∈ rows ∧ dateToTime y m d ≤ r.created_at ∧
        r.created_at < dateToTime y m d + 86400 := by
    intro rows y m d r
    simp [get_events_by_day, mem_sortByB, List.mem_filter, and_assoc]
  have hmonth : ∀ rows y m (r : CaptureRow), r ∈ get_events_by_month rows y m ↔
      r ∈ rows ∧ monthStart y m ≤ r.created_at ∧
        r.created_at < nextMonthStart y m := by
    intro rows y m r
    simp [get_events_by_month, mem_sortByB, List.mem_filter, and_assoc]
  have hrange : ∀ rows s e (r : CaptureRow), r ∈ get_events_by_range rows s e ↔
      r ∈ rows ∧ s ≤ r.created_at ∧ r.created_at ≤ e := by
    intro rows s e r
    simp [get_events_by_range, mem_sortByB, List.mem_filter, and_assoc]
  refine ⟨hday, hmonth, hrange, ?_, ?_, ?_⟩
  · intro rows s e r hr hs he
    exact (hrange rows s e r).mpr ⟨hr, hs, le_of_eq he⟩
  · intro rows y m d r he hmem
    have := ((hday rows y m d r).mp hmem).2.2
    rw [he] at this
    exact lt_irrefl _ this
  · intro rows y m r he hmem
    have := ((hmonth rows y m r).mp hmem).2.2
    rw [he] at this
    exact lt_irrefl _ this

/-- A row timestamped exactly at a range query's end bound. -/
def rowAtRangeEnd : CaptureRow :=
  ⟨1, "https://a.example", "text", "x", none, none, "p.png", 100⟩

/-- A row timestamped exactly at midnight after 2024-01-15. -/
def rowAtDayBound : CaptureRow :=
  ⟨2, "https://a.example", "text", "x", none, none, "p.png",
   dateToTime 2024 1 16⟩

/-- Closed instance of the C4 theorem: the range end bound is inclusive
and the day upper bound is exclusive, at concrete data. -/
theorem c4_witness :
    rowAtRangeEnd ∈ get_events_by_range [rowAtRangeEnd] 0 100 ∧
    rowAtDayBound ∉ get_events_by_day [rowAtDayBound] 2024 1 15 :=
  ⟨c4_window_boundaries.2.2.2.1 [rowAtRangeEnd] 0 100 rowAtRangeEnd
      (by simp) (by decide) rfl,
   c4_window_boundaries.2.2.2.2.1 [rowAtDayBound] 2024 1 15 rowAtDayBound
      (by decide)⟩

theorem perm_orderedInsertB (le : α → α → Bool) (a : α) (l : List α) :
    (orderedInsertB le a l).Perm (a :: l) := by
  induction l with
  | nil => simp [orderedInsertB]
  | cons b bs ih =>
      by_cases h : le a b = true
      · simp [orderedInsertB, h]
      · have e : orderedInsertB le a (b :: bs) = b :: orderedInsertB le a bs := by
          simp [orderedInsertB, h]
        rw [e]
        exact (ih.cons b).trans (List.Perm.swap a b bs)

theorem perm_sortByB (le : α → α → Bool) (l : List α) :
    (sortByB le l).Perm l := by
  induction l with
  | nil => simp [sortByB]
  | cons a as ih => exact (perm_orderedInsertB le a (sortByB le as)).trans (ih.cons a)

theorem charListLe_total : ∀ as bs : List Char,
    charListLe as bs = true ∨ charListLe bs as = true := by
  intro as
  induction as with
  | nil => intro bs; left; rfl
  | cons a as ih =>
      intro bs
      cases bs with
      | nil => right; rfl
      | cons b bs' =>
          rcases lt_trichotomy a b with h | h | h
          · left; simp [charListLe, h]
          · subst h
            rcases ih bs' with h' | h'
            · left; simp [charListLe, h']
            · right; simp [charListLe, h']
          · right; simp [charListLe, h]

theorem charListLe_trans : ∀ as bs cs : List Char,
    charListLe as bs = true → charListLe bs cs = true →
    charListLe as cs = true := by
  intro as
  induction as with
  | nil => intro bs cs _ _; rfl
  | cons a as ih =>
      intro bs cs h1 h2
      cases bs with
      | nil => simp [charListLe] at h1
      | cons b bs' =>
          cases cs with
          | nil => simp [charListLe] at h2
          | cons c cs' =>
              simp only [charListLe, Bool.or_eq_true, Bool.and_eq_true,
                decide_eq_true_eq] at h1 h2 ⊢
              rcases h1 with h1 | ⟨he1, h1'⟩ <;> rcases h2 with h2 | ⟨he2, h2'⟩
              · exact Or.inl (lt_trans h1 h2)
              · exact Or.inl (he2 ▸ h1)
              · exact Or.inl (he1 ▸ h2)
              · exact Or.inr ⟨he1.trans he2, ih bs' cs' h1' h2'⟩

theorem statKeyLe_total : ∀ a b : Int × String,
    statKeyLe a b = true ∨ statKeyLe b a = true := by
  intro a b
  rcases lt_trichotomy a.1 b.1 with h | h | h
  · left; simp [statKeyLe, h]
  · rcases charListLe_total a.2.data b.2.data with h' | h'
    · left; simp [statKeyLe, h, strLe, h']
    · right; simp [statKeyLe, h.symm, strLe, h']
  · right; simp [statKeyLe, h]

theorem statKeyLe_trans : ∀ a b c : Int × String,
    statKeyLe a b = true → statKeyLe b c = true → statKeyLe a c = true := by
  intro a b c h1 h2
  simp only [statKeyLe, strLe, Bool.or_eq_true, Bool.and_eq_true,
    decide_eq_true_eq] at h1 h2 ⊢
  rcases h1 with h1 | ⟨he1, h1'⟩ <;> rcases h2 with h2 | ⟨he2, h2'⟩
  · exact Or.inl (lt_trans h1 h2)
  · exact Or.inl (he2 ▸ h1)
  · exact Or.inl (he1 ▸ h2)
  · exact Or.inr ⟨he1.trans he2, charListLe_trans _ _ _ h1' h2'⟩

theorem rollup_keys_eq (rows : List CaptureRow) (now : Int) :
    (get_daily_stats_last_60_days rows now).map (fun g => (g.day, g.origin_url)) =
      sortByB statKeyLe
        (((rows.filter fun r =>
            decide (now - 60 * 86400 ≤ r.created_at)).map statKey).dedup) := by
  simp only [get_daily_stats_last_60_days, List.map_map]
  exact List.map_id'' (fun k => rfl) _

/-- A row whose created_at equals the query-time now. -/
def rollupRowAtNow : CaptureRow :=
  ⟨1, "https://a.example", "text", "x", none, some "h1", "p.png", 0⟩

/-- C5 counterexample: with now = 0, the rollup of a single row whose
created_at equals now still returns a group counting that row, although
the half-open window claimed by the spec excludes a row with
created_at = now — the source query has no upper bound on created_at. -/
theorem c5_counterexample :
    get_daily_stats_last_60_days [rollupRowAtNow] 0 =
      [⟨0, "https://a.example", 1, 1⟩] ∧
    ¬ (rollupRowAtNow.created_at < 0) := by
  exact ⟨rfl, by decide⟩

/-- C5 (amended): the rollup groups exactly the rows with created_at at
least now minus 60 days — the query enforces no upper bound, so rows
timestamped at or after now are included as well; each group carries the
total row count and the count of distinct non-absent page_hash values of
its (day, origin_url) key, there is one group per key, and groups are
ordered by day ascending then origin_url ascending. -/
theorem c5_amended_rollup :
    ∀ (rows : List CaptureRow) (now : Int),
      (∀ g ∈ get_daily_stats_last_60_days rows now,
        ∃ r ∈ rows, now - 60 * 86400 ≤ r.created_at ∧
          dayTrunc r.created_at = g.day ∧ r.origin_url = g.origin_url) ∧
      (∀ g ∈ get_daily_stats_last_60_days rows now,
        g.total_events =
          ((rows.filter fun r => decide (now - 60 * 86400 ≤ r.created_at)).filter
            fun r => decide (statKey r = (g.day, g.origin_url))).length ∧
        g.unique_pages =
          (((rows.filter fun r => decide (now - 60 * 86400 ≤ r.created_at)).filter
              fun r => decide (statKey r = (g.day, g.origin_url))).filterMap
            fun r => r.page_hash).dedup.length) ∧
      (∀ (D : Int) (U : String),
        ((D, U) ∈ (get_daily_stats_last_60_days rows now).map
            fun g => (g.day, g.origin_url)) ↔
          ∃ r ∈ rows, now - 60 * 86400 ≤ r.created_at ∧
            dayTrunc r.created_at = D ∧ r.origin_url = U) ∧
      ((get_daily_stats_last_60_days rows now).map
          fun g => (g.day, g.origin_url)).Nodup ∧
      ((get_daily_stats_last_60_days rows now).map
          fun g => (g.day, g.origin_url)).Pairwise
        (fun a b => statKeyLe a b = true) := by
  intro rows now
  refine ⟨?_, ?_, ?_, ?_, ?_⟩
  · intro g hg
    simp only [get_daily_stats_last_60_days, List.mem_map, mem_sortByB,
      List.mem_dedup] at hg
    obtain ⟨k, hk, rfl⟩ := hg
    simp only [List.mem_map, List.mem_filter, decide_eq_true_eq] at hk
    obtain ⟨r, ⟨hr, hw⟩, rfl⟩ := hk
    exact ⟨r, hr, hw, rfl, rfl⟩
  · intro g hg
    simp only [get_daily_stats_last_60_days, List.mem_map, mem_sortByB,
      List.mem_dedup] at hg
    obtain ⟨k, hk, rfl⟩ := hg
    exact ⟨rfl, rfl⟩
  · intro D U
    rw [rollup_keys_eq]
    simp only [mem_sortByB, List.mem_dedup, List.mem_map, List.mem_filter,
      decide_eq_true_eq, statKey, Prod.mk.injEq]
    constructor
    · rintro ⟨r, ⟨hr, hw⟩, hD, hU⟩
      exact ⟨r, hr, hw, hD, hU⟩
    · rintro ⟨r, hr, hw, hD, hU⟩
      exact ⟨r, ⟨hr, hw⟩, hD, hU⟩
  · rw [rollup_keys_eq]
    exact ((perm_sortByB _ _).nodup_iff).mpr (List.nodup_dedup _)
  · rw [rollup_keys_eq]
    exact pairwise_sortByB statKeyLe statKeyLe_total statKeyLe_trans _

/-- A row comfortably inside the 60-day window. -/
def rollupWitRow : CaptureRow :=
  ⟨2, "https://a.example", "text", "x", none, some "h2", "p.png", -100⟩

/-- Closed instance of the amended C5 theorem: a row one day back
produces its (day, origin_url) group. -/
theorem c5_amended_witness :
    ((-86400 : Int), "https://a.example") ∈
      (get_daily_stats_last_60_days [rollupWitRow] 0).map
        fun g => (g.day, g.origin_url) :=
  ((c5_amended_rollup [rollupWitRow] 0).2.2.1 (-86400) "https://a.example").mpr
    ⟨rollupWitRow, by simp, by decide, by decide, rfl⟩

/-- A payload whose click_type is outside the documented enum and whose
string fields are empty. -/
def rawBadReq : RawCreateSnapshotRequest :=
  ⟨some "", some "bogus", some "", some 3000, some true⟩

/-- C7 counterexample: the request model accepts click_type = "bogus"
(not one of text/css/xpath/aria) together with empty origin_url and
click_value, and the accepted value is forwarded verbatim — nothing is
rejected. -/
theorem c7_counterexample :
    validateCreateSnapshotRequest rawBadReq = .ok ⟨"", "bogus", "", 3000, true⟩ ∧
    ¬ ("bogus" ∈ (["text", "css", "xpath", "aria"] : List String)) ∧
    (buildRenderRequest ⟨"", "bogus", "", 3000, true⟩).click_type = "bogus" := by
  exact ⟨rfl, by decide, rfl⟩

/-- C7 (amended): the create-capture API accepts a request exactly when
origin_url, click_type and click_value are present (any string value,
empty or non-enum included) and wait_after_click_ms, defaulting to 3000,
is nonnegative; missing fields or a negative wait are rejected with a
structured error; click_type is never checked against the four enum
values and is forwarded verbatim in the wire request to the render
collaborator. -/
theorem c7_amended_validation :
    ∀ raw : RawCreateSnapshotRequest,
      ((∃ r, validateCreateSnapshotRequest raw = .ok r) ↔
        raw.origin_url.isSome ∧ raw.click_type.isSome ∧ raw.click_value.isSome ∧
          0 ≤ raw.wait_after_click_ms.getD 3000) ∧
      (∀ r, validateCreateSnapshotRequest raw = .ok r →
        raw.origin_url = some r.origin_url ∧
        raw.click_type = some r.click_type ∧
        raw.click_value = some r.click_value ∧
        r.wait_after_click_ms = raw.wait_after_click_ms.getD 3000 ∧
        r.full_page = raw.full_page.getD true ∧
        (buildRenderRequest r).click_type = r.click_type) ∧
      (¬ (raw.origin_url.isSome ∧ raw.click_type.isSome ∧
            raw.click_value.isSome ∧ 0 ≤ raw.wait_after_click_ms.getD 3000) →
        ∃ e, validateCreateSnapshotRequest raw = .error e) := by
  intro raw
  obtain ⟨o, ct, cv, w, fp⟩ := raw
  refine ⟨?_, ?_, ?_⟩
  · constructor
    · rintro ⟨r, hr⟩
      cases o <;> cases ct <;> cases cv <;>
        simp only [validateCreateSnapshotRequest] at hr <;>
        try exact absurd hr (by simp)
      by_cases hw : (w.getD 3000) < 0
      · rw [if_pos hw] at hr
        exact absurd hr (by simp)
      · simp [not_lt.mp hw]
    · rintro ⟨ho, hct, hcv, hw⟩
      obtain ⟨o, rfl⟩ := Option.isSome_iff_exists.mp ho
      obtain ⟨ct, rfl⟩ := Option.isSome_iff_exists.mp hct
      obtain ⟨cv, rfl⟩ := Option.isSome_iff_exists.mp hcv
      exact ⟨⟨o, ct, cv, w.getD 3000, fp.getD true⟩, by
        simp [validateCreateSnapshotRequest, not_lt.mpr hw]⟩
  · intro r hr
    cases o <;> cases ct <;> cases cv <;>
      simp only [validateCreateSnapshotRequest] at hr <;>
      try exact absurd hr (by simp)
    by_cases hw : (w.getD 3000) < 0
    · rw [if_pos hw] at hr
      exact absurd hr (by simp)
    · rw [if_neg hw] at hr
      cases hr
      exact ⟨rfl, rfl, rfl, rfl, rfl, rfl⟩
  · intro hbad
    cases o <;> cases ct <;> cases cv <;> try exact ⟨_, rfl⟩
    by_cases hw : (w.getD 3000) < 0
    · exact ⟨"validation error: wait_after_click_ms: Input should be greater than or equal to 0",
        by simp [validateCreateSnapshotRequest, hw]⟩
    · exact absurd ⟨rfl, rfl, rfl, not_lt.mp hw⟩ hbad

/-- Closed instance of the amended C7 theorem: a well-formed request
with defaults omitted is accepted. -/
theorem c7_amended_witness :
    ∃ r, validateCreateSnapshotRequest
        ⟨some "https://site.example", some "css", some "#download", none, none⟩ =
      .ok r :=
  ((c7_amended_validation
      ⟨some "https://site.example", some "css", some "#download", none, none⟩).1).mpr
    (by decide)

/-- C8: every database operation either appends exactly one new row at
the end or leaves the stored rows unchanged — no operation updates or
deletes an existing row, so every pre-existing row survives every
subsequent capture or query operation with all fields intact. -/
theorem c8_append_only :
    ∀ (db : DbState) (op : DbOp),
      ∃ tail, (applyDb db op).1.rows = db.rows ++ tail ∧
        (tail = [] ∨ ∃ r, tail = [r]) := by
  intro db op
  cases op with
  | insertOp o ct cv pu ph sp now =>
      exact ⟨[⟨db.seq, o, ct, cv, pu, ph, sp, now⟩], rfl, Or.inr ⟨_, rfl⟩⟩
  | dailyStatsOp now => exact ⟨[], (List.append_nil _).symm, Or.inl rfl⟩
  | yesterdayOp now => exact ⟨[], (List.append_nil _).symm, Or.inl rfl⟩
  | byDayOp y m d => exact ⟨[], (List.append_nil _).symm, Or.inl rfl⟩
  | byMonthOp y m => exact ⟨[], (List.append_nil _).symm, Or.inl rfl⟩
  | byRangeOp s e => exact ⟨[], (List.append_nil _).symm, Or.inl rfl⟩

/-- C1 is violated by the source: in an environment where the render
call, the screenshot save and the (would-be) insert all succeed,
insert_snapshot yields None instead of the new id — the cursor's
RETURNING result is never fetched and the function has no return — and
create_snapshot, which moreover never awaits the insert, returns a
response-validation error and leaves the table unchanged instead of
returning the newly assigned id. -/
theorem c1_no_id_returned :
    (insert_snapshot dbEx "https://site.example" "text" "Download"
        (some "https://dest.example/landing") (some "deadbeef")
        "/data/screenshots/20240115_ab12cd34.png" 100).2 = none ∧
    (insert_snapshot dbEx "https://site.example" "text" "Download"
        (some "https://dest.example/landing") (some "deadbeef")
        "/data/screenshots/20240115_ab12cd34.png" 100).1.rows.length = 1 ∧
    render_click (.response 200 okBodyEx) = .ok okBodyEx ∧
    save_screenshot okBodyEx.screenshot_base64 "/data/screenshots"
        "20240115_ab12cd34.png" true [] =
      .ok ([⟨"/data/screenshots/20240115_ab12cd34.png", [104, 101, 108, 108, 111]⟩],
        "/data/screenshots/20240115_ab12cd34.png") ∧
    (∃ e, (create_snapshot reqEx (.response 200 okBodyEx) "/data/screenshots"
        "20240115_ab12cd34.png" true [] dbEx).1 = .error e) ∧
    (create_snapshot reqEx (.response 200 okBodyEx) "/data/screenshots"
        "20240115_ab12cd34.png" true [] dbEx).2.2 = dbEx := by
  exact ⟨rfl, rfl, rfl, rfl, ⟨_, rfl⟩, rfl⟩

/-- A collaborator body whose screenshot payload is the empty string. -/
def emptyShotBody : RenderBody :=
  ⟨some "ok", none, some "https://dest.example/landing", some "deadbeef", some ""⟩

/-- C10's save half holds but its insert half is violated by the source:
the empty screenshot_base64 decodes to zero bytes and save_screenshot
writes a zero-byte artifact and returns its locator, yet create_snapshot
inserts no audit row — the never-awaited insert leaves the table
unchanged and the endpoint returns an error instead of an id. -/
theorem c10_zero_byte_artifact_no_row :
    b64decode "" = .ok [] ∧
    save_screenshot (some "") "/data/screenshots" "20240115_ab12cd34.png" true [] =
      .ok ([⟨"/data/screenshots/20240115_ab12cd34.png", []⟩],
        "/data/screenshots/20240115_ab12cd34.png") ∧
    (create_snapshot reqEx (.response 200 emptyShotBody) "/data/screenshots"
        "20240115_ab12cd34.png" true [] dbEx).2.1 =
      [⟨"/data/screenshots/20240115_ab12cd34.png", []⟩] ∧
    (∃ e, (create_snapshot reqEx (.response 200 emptyShotBody) "/data/screenshots"
        "20240115_ab12cd34.png" true [] dbEx).1 = .error e) ∧
    (create_snapshot reqEx (.response 200 emptyShotBody) "/data/screenshots"
        "20240115_ab12cd34.png" true [] dbEx).2.2 = dbEx := by
  exact ⟨rfl, rfl, rfl, ⟨_, rfl⟩, rfl⟩

end ELM
